import Mathlib

/-!
Shallow embedding of `src/HoloPlayConfig.js` (holoplay-webxr).

The module exposes a singleton configuration store (an `EventTarget`
subclass).  We embed:

* the store state (calibration record, the eleven mutable parameters, and
  the state of the promise-based change-notification loop),
* the parameter setters and the calibration setter,
* the microtask step that runs the pending promise continuation
  (`fireChanged(true)`: dispatch the `on-config-changed` event, then re-arm),
* the `HoloPlayCore.Client` success callback,
* the computed getters, over an idealised JavaScript number type
  (exact reals extended with `posInf`, `negInf` and `nan`; floating-point
  rounding and overflow are idealised away, every other case split of the
  JS `Math` functions is kept),
* the `deepFreeze` function and frozen-object assignment semantics, over an
  explicit JavaScript object tree.

Numbers held in store fields are modelled as exact reals (`ℝ`).
-/

/-- Idealised JavaScript number: an exact real, one of the two infinities, or
`NaN`.  Finite-precision rounding and overflow of IEEE doubles are idealised
away (`fin x * fin y = fin (x*y)` and so on); the special-value case splits of
the JS operations are modelled exactly.  `-0` is identified with `0`. -/
inductive JSNum where
  | fin (x : ℝ)
  | posInf
  | negInf
  | nan

noncomputable section

/-- JS multiplication (`a * b`). -/
def jsMul : JSNum → JSNum → JSNum
  | .nan, _ => .nan
  | _, .nan => .nan
  | .fin a, .fin b => .fin (a * b)
  | .fin a, .posInf => if a = 0 then .nan else if 0 < a then .posInf else .negInf
  | .fin a, .negInf => if a = 0 then .nan else if 0 < a then .negInf else .posInf
  | .posInf, .fin b => if b = 0 then .nan else if 0 < b then .posInf else .negInf
  | .negInf, .fin b => if b = 0 then .nan else if 0 < b then .negInf else .posInf
  | .posInf, .posInf => .posInf
  | .posInf, .negInf => .negInf
  | .negInf, .posInf => .negInf
  | .negInf, .negInf => .posInf

/-- JS division (`a / b`); division of a nonzero finite number by `0` yields a
signed infinity (`-0` is identified with `0`, so the divisor `0` is positive). -/
def jsDiv : JSNum → JSNum → JSNum
  | .nan, _ => .nan
  | _, .nan => .nan
  | .fin a, .fin b =>
      if b = 0 then (if a = 0 then .nan else if 0 < a then .posInf else .negInf)
      else .fin (a / b)
  | .fin _, .posInf => .fin 0
  | .fin _, .negInf => .fin 0
  | .posInf, .fin b => if 0 ≤ b then .posInf else .negInf
  | .negInf, .fin b => if 0 ≤ b then .negInf else .posInf
  | .posInf, _ => .nan
  | .negInf, _ => .nan

/-- JS `Math.sqrt`. -/
def jsSqrt : JSNum → JSNum
  | .nan => .nan
  | .fin a => if a < 0 then .nan else .fin (Real.sqrt a)
  | .posInf => .posInf
  | .negInf => .nan

/-- JS `Math.log2` (`Math.log2 0 = -Infinity`, negative argument gives `NaN`). -/
def jsLog2 : JSNum → JSNum
  | .nan => .nan
  | .fin a => if a < 0 then .nan else if a = 0 then .negInf else .fin (Real.logb 2 a)
  | .posInf => .posInf
  | .negInf => .nan

/-- JS `Math.ceil`. -/
def jsCeil : JSNum → JSNum
  | .fin a => .fin (⌈a⌉ : ℝ)
  | x => x

/-- JS `Math.floor`. -/
def jsFloor : JSNum → JSNum
  | .fin a => .fin (⌊a⌋ : ℝ)
  | x => x

/-- JS `Math.round` (round half toward positive infinity: `⌊x + 1/2⌋`). -/
def jsRound : JSNum → JSNum
  | .fin a => .fin (⌊a + 1 / 2⌋ : ℝ)
  | x => x

/-- JS `Math.max` of two arguments (`NaN` if either argument is `NaN`). -/
def jsMax : JSNum → JSNum → JSNum
  | .nan, _ => .nan
  | _, .nan => .nan
  | .fin a, .fin b => .fin (max a b)
  | .posInf, _ => .posInf
  | _, .posInf => .posInf
  | .fin a, .negInf => .fin a
  | .negInf, .fin b => .fin b
  | .negInf, .negInf => .negInf

/-- JS `2 ** e` (`2 ** -Infinity = 0`, `2 ** Infinity = Infinity`); on finite
exponents this is the real power `2 ^ e` (`Real.rpow`). -/
def jsPow2 : JSNum → JSNum
  | .nan => .nan
  | .fin e => .fin ((2 : ℝ) ^ e)
  | .posInf => .posInf
  | .negInf => .fin 0

/-- JS `Math.cos` (`NaN` on infinite arguments). -/
def jsCos : JSNum → JSNum
  | .fin a => .fin (Real.cos a)
  | _ => .nan

/-- JS `Math.atan`. -/
def jsAtan : JSNum → JSNum
  | .fin a => .fin (Real.arctan a)
  | .posInf => .fin (Real.pi / 2)
  | .negInf => .fin (-(Real.pi / 2))
  | .nan => .nan

/-- A calibration measurement envelope, `{ value: number }` in the source. -/
structure CalValue where
  value : ℝ

/-- The calibration record shape used by `kFakeCalibration` and by
device-reported calibrations. -/
structure Calibration where
  configVersion : String
  pitch : CalValue
  slope : CalValue
  center : CalValue
  viewCone : CalValue
  invView : CalValue
  verticalAngle : CalValue
  DPI : CalValue
  screenW : CalValue
  screenH : CalValue
  flipImageX : CalValue
  flipImageY : CalValue
  flipSubp : CalValue

/-- `export const kDefaultEyeHeight = 1.6`. -/
def kDefaultEyeHeight : ℝ := 1.6

/-- The placeholder calibration `kFakeCalibration` from the source. -/
def kFakeCalibration : Calibration :=
  { configVersion := "1.0"
    pitch := ⟨45⟩
    slope := ⟨-5⟩
    center := ⟨-0.5⟩
    viewCone := ⟨40⟩
    invView := ⟨1⟩
    verticalAngle := ⟨0⟩
    DPI := ⟨338⟩
    screenW := ⟨250⟩
    screenH := ⟨250⟩
    flipImageX := ⟨0⟩
    flipImageY := ⟨0⟩
    flipSubp := ⟨0⟩ }

/-- State of the configuration store.  Besides the calibration record and the
eleven mutable parameters it carries the state of the change-notification
loop set up by `fireChanged` in the constructor:

* `pendingResolved`: the resolve function of the currently pending
  `changePromise` has been called (so the `fireChanged(true)` continuation is
  sitting in the microtask queue) but that continuation has not run yet;
* `notifications`: how many `on-config-changed` events have been dispatched
  so far.  `EventTarget.dispatchEvent` synchronously invokes every currently
  subscribed listener, so an observer subscribed at a moment when the counter
  was `c` has received exactly `notifications - c` notifications. -/
structure Store where
  calibration : Calibration
  tileHeight : ℝ
  numViews : ℝ
  trackballX : ℝ
  trackballY : ℝ
  targetX : ℝ
  targetY : ℝ
  targetZ : ℝ
  targetDiam : ℝ
  fovy : ℝ
  depthiness : ℝ
  inlineView : ℝ
  pendingResolved : Bool
  notifications : Nat

/-- Calling `this._ensureConfigChangeEvent()`: resolves the currently pending
`changePromise`.  Resolving an already-resolved promise is a no-op, which is
exactly `pendingResolved := true`. -/
def ensureConfigChangeEvent (s : Store) : Store :=
  { s with pendingResolved := true }

/-- Running the queued promise continuation `() => fireChanged(true)` when the
microtask queue is processed: if the pending promise has been resolved, the
continuation dispatches one `on-config-changed` event to all current
listeners and then re-arms (creates a fresh `changePromise` whose resolve
function replaces `_ensureConfigChangeEvent`).  If no resolution is pending
there is nothing in the microtask queue and the state is unchanged. -/
def drainMicrotasks (s : Store) : Store :=
  if s.pendingResolved then
    { s with pendingResolved := false, notifications := s.notifications + 1 }
  else s

/-- `set calibration(v) { this._calibration = deepFreeze(v); this._ensureConfigChangeEvent(); }`.
(`deepFreeze` returns its argument; the freezing side effect is modelled
separately on the JavaScript object tree, see `deepFreeze` below.) -/
def setCalibration (s : Store) (v : Calibration) : Store :=
  ensureConfigChangeEvent { s with calibration := v }

/-- The eleven mutable parameter setters of the store. -/
inductive Setter where
  | tileHeight
  | numViews
  | trackballX
  | trackballY
  | targetX
  | targetY
  | targetZ
  | targetDiam
  | fovy
  | depthiness
  | inlineView
deriving DecidableEq

/-- `set tileHeight(v) { this._tileHeight = v; this._ensureConfigChangeEvent(); }`
and the ten analogous parameter setters: store the value in the backing
field, then resolve the pending change promise. -/
def applySetter : Setter → ℝ → Store → Store
  | .tileHeight, v, s => ensureConfigChangeEvent { s with tileHeight := v }
  | .numViews, v, s => ensureConfigChangeEvent { s with numViews := v }
  | .trackballX, v, s => ensureConfigChangeEvent { s with trackballX := v }
  | .trackballY, v, s => ensureConfigChangeEvent { s with trackballY := v }
  | .targetX, v, s => ensureConfigChangeEvent { s with targetX := v }
  | .targetY, v, s => ensureConfigChangeEvent { s with targetY := v }
  | .targetZ, v, s => ensureConfigChangeEvent { s with targetZ := v }
  | .targetDiam, v, s => ensureConfigChangeEvent { s with targetDiam := v }
  | .fovy, v, s => ensureConfigChangeEvent { s with fovy := v }
  | .depthiness, v, s => ensureConfigChangeEvent { s with depthiness := v }
  | .inlineView, v, s => ensureConfigChangeEvent { s with inlineView := v }

/-- The stored (backing-field) value read by each parameter getter. -/
def paramValue : Setter → Store → ℝ
  | .tileHeight, s => s.tileHeight
  | .numViews, s => s.numViews
  | .trackballX, s => s.trackballX
  | .trackballY, s => s.trackballY
  | .targetX, s => s.targetX
  | .targetY, s => s.targetY
  | .targetZ, s => s.targetZ
  | .targetDiam, s => s.targetDiam
  | .fovy, s => s.fovy
  | .depthiness, s => s.depthiness
  | .inlineView, s => s.inlineView

/-- A list of setter calls performed back to back in one synchronous block
(the microtask queue does not run in between). -/
def applySetters : List (Setter × ℝ) → Store → Store
  | [], s => s
  | (g, v) :: rest, s => applySetters rest (applySetter g v s)

/-- A list of setter calls where the microtask queue is drained after each
call (each mutation happens in its own event-loop turn). -/
def applySettersDrained : List (Setter × ℝ) → Store → Store
  | [], s => s
  | (g, v) :: rest, s => applySettersDrained rest (drainMicrotasks (applySetter g v s))

/-- The store state right after the constructor returns.  The constructor
runs `fireChanged(false)` (arming the loop without dispatching), then assigns
the placeholder calibration and the eleven parameter defaults through the
setters.  The very first setter call resolves the armed promise, so the
constructor returns with `pendingResolved = true` and nothing dispatched yet
(the `fireChanged(true)` continuation runs only when the microtask queue is
next processed). -/
def initStore : Store :=
  { calibration := kFakeCalibration
    tileHeight := 320
    numViews := 2
    trackballX := 0
    trackballY := 0
    targetX := 0
    targetY := kDefaultEyeHeight
    targetZ := -0.5
    targetDiam := 2.0
    fovy := 13.0 / 180 * Real.pi
    depthiness := 1.25
    inlineView := 1
    pendingResolved := true
    notifications := 0 }

/-- One entry of the device list in the client success message. -/
structure Device where
  calibration : Calibration

/-- The message delivered to the `HoloPlayCore.Client` success callback. -/
structure ClientMessage where
  devices : List Device

/-- A console report produced by the client callbacks. -/
inductive LogEntry where
  | error (msg : String)
  | warn (msg : String)
deriving DecidableEq

/-- The success callback passed to `new HoloPlayCore.Client(...)`: on an empty
device list it logs an error and returns (calibration untouched); otherwise it
logs a warning when more than one device is present and assigns the first
device's calibration through the calibration setter.  Returns the new store
state together with the console output of the call. -/
def onClientMessage (s : Store) (msg : ClientMessage) : Store × List LogEntry :=
  if msg.devices.length < 1 then
    (s, [.error "No HoloPlay devices found!"])
  else
    let warnings : List LogEntry :=
      if msg.devices.length > 1 then
        [.warn "More than one HoloPlay device found... using the first one"]
      else []
    match msg.devices with
    | [] => (s, warnings)
    | d :: _ => (setCalibration s d.calibration, warnings)

/-- `get aspect() { return this.calibration.screenW.value / this.calibration.screenH.value; }` -/
def aspect (s : Store) : JSNum :=
  jsDiv (.fin s.calibration.screenW.value) (.fin s.calibration.screenH.value)

/-- `get tileWidth() { return Math.round(this.tileHeight * this.aspect); }` -/
def tileWidth (s : Store) : JSNum :=
  jsRound (jsMul (.fin s.tileHeight) (aspect s))

/-- `get framebufferWidth()`: `numPixels = tileWidth * tileHeight * numViews`;
returns `2 ** Math.ceil(Math.log2(Math.max(Math.sqrt(numPixels), tileWidth)))`. -/
def framebufferWidth (s : Store) : JSNum :=
  let numPixels := jsMul (jsMul (tileWidth s) (.fin s.tileHeight)) (.fin s.numViews)
  jsPow2 (jsCeil (jsLog2 (jsMax (jsSqrt numPixels) (tileWidth s))))

/-- `get quiltWidth() { return Math.floor(this.framebufferWidth / this.tileWidth); }` -/
def quiltWidth (s : Store) : JSNum :=
  jsFloor (jsDiv (framebufferWidth s) (tileWidth s))

/-- `get quiltHeight() { return Math.ceil(this.numViews / this.quiltWidth); }` -/
def quiltHeight (s : Store) : JSNum :=
  jsCeil (jsDiv (.fin s.numViews) (quiltWidth s))

/-- `get framebufferHeight() { return 2 ** Math.ceil(Math.log2(this.quiltHeight * this.tileHeight)); }` -/
def framebufferHeight (s : Store) : JSNum :=
  jsPow2 (jsCeil (jsLog2 (jsMul (quiltHeight s) (.fin s.tileHeight))))

/-- `get viewCone() { return this.calibration.viewCone.value * this.depthiness / 180 * Math.PI; }` -/
def viewCone (s : Store) : JSNum :=
  jsMul (jsDiv (jsMul (.fin s.calibration.viewCone.value) (.fin s.depthiness)) (.fin 180))
    (.fin Real.pi)

/-- `get tilt()`: `screenH / (screenW * slope) * (flipImageX ? -1 : 1)`
(a number is truthy exactly when it is nonzero). -/
def tilt (s : Store) : JSNum :=
  jsMul
    (jsDiv (.fin s.calibration.screenH.value)
      (jsMul (.fin s.calibration.screenW.value) (.fin s.calibration.slope.value)))
    (.fin (if s.calibration.flipImageX.value ≠ 0 then -1 else 1))

/-- `get subp() { return 1 / (this.calibration.screenW.value * 3); }` -/
def subp (s : Store) : JSNum :=
  jsDiv (.fin 1) (jsMul (.fin s.calibration.screenW.value) (.fin 3))

/-- `get pitch()`: `pitch * (screenW / DPI) * cos(atan(1 / slope))`. -/
def pitch (s : Store) : JSNum :=
  let screenInches := jsDiv (.fin s.calibration.screenW.value) (.fin s.calibration.DPI.value)
  jsMul (jsMul (.fin s.calibration.pitch.value) screenInches)
    (jsCos (jsAtan (jsDiv (.fin 1) (.fin s.calibration.slope.value))))

/-- The ten computed getters of the store. -/
inductive Getter where
  | aspect
  | tileWidth
  | framebufferWidth
  | quiltWidth
  | quiltHeight
  | framebufferHeight
  | viewCone
  | tilt
  | subp
  | pitch
deriving DecidableEq

/-- Reading a computed getter, as an operation on the store: the getter body
is a pure expression over `this` (it contains no assignment and calls no
mutator), so the operation returns the computed value together with the store
state after the read, which is the state it was given. -/
def readGetter : Getter → Store → JSNum × Store
  | .aspect, s => (aspect s, s)
  | .tileWidth, s => (tileWidth s, s)
  | .framebufferWidth, s => (framebufferWidth s, s)
  | .quiltWidth, s => (quiltWidth s, s)
  | .quiltHeight, s => (quiltHeight s, s)
  | .framebufferHeight, s => (framebufferHeight s, s)
  | .viewCone, s => (viewCone s, s)
  | .tilt, s => (tilt s, s)
  | .subp, s => (subp s, s)
  | .pitch, s => (pitch s, s)

/-- The store reached from the freshly constructed store by `tileHeight = 0`
(used to exercise `framebufferWidth` on a degenerate parameter value). -/
def zeroTileHeightStore : Store := applySetter .tileHeight 0 initStore

/-- The store reached from the freshly constructed store by
`tileHeight = -320; numViews = 3` (used to exercise the quilt getters on a
degenerate parameter value). -/
def negTileHeightStore : Store :=
  applySetter .numViews 3 (applySetter .tileHeight (-320) initStore)

/-- `x` is an integer power of two. -/
def IsPow2 (x : ℝ) : Prop := ∃ k : ℤ, x = (2 : ℝ) ^ k

end

/-! JavaScript object trees and `deepFreeze`.  This models the part of the
source that manipulates the object structure of a calibration value: the
recursive `deepFreeze` helper and the semantics of (non-strict) property
assignment, which silently does nothing on a frozen object. -/

mutual

/-- A JavaScript value as seen by `deepFreeze`: a primitive (number or
string), or an object carrying its `Object.isFrozen` flag and its own
enumerable properties in order. -/
inductive JSObj where
  | num (v : ℚ)
  | str (t : String)
  | obj (frozen : Bool) (fields : JSFields)
deriving DecidableEq

/-- The property list of a JavaScript object. -/
inductive JSFields where
  | nil
  | cons (name : String) (v : JSObj) (rest : JSFields)
deriving DecidableEq

end

/-- `typeof o === 'object'` (primitives are not objects). -/
def isObjectVal : JSObj → Bool
  | .num _ => false
  | .str _ => false
  | .obj _ _ => true

/-- `Object.isFrozen` (`true` on primitives). -/
def isFrozenVal : JSObj → Bool
  | .num _ => true
  | .str _ => true
  | .obj f _ => f

mutual

/-- `deepFreeze(o)` from the source: freeze `o` itself, then recurse into
exactly those own properties that are objects and are not already frozen
(an already-frozen child is skipped, whatever its own children look like).
`Object.freeze` on a primitive is a no-op. -/
def deepFreeze : JSObj → JSObj
  | .num v => .num v
  | .str t => .str t
  | .obj _ fs => .obj true (deepFreezeFields fs)

/-- The `Object.getOwnPropertyNames(o).forEach(...)` loop of `deepFreeze`. -/
def deepFreezeFields : JSFields → JSFields
  | .nil => .nil
  | .cons n v rest =>
      .cons n (if isObjectVal v && !isFrozenVal v then deepFreeze v else v)
        (deepFreezeFields rest)

end

mutual

/-- The value and every object nested anywhere inside it are frozen. -/
def deeplyFrozen : JSObj → Bool
  | .num _ => true
  | .str _ => true
  | .obj f fs => f && deeplyFrozenFields fs

/-- `deeplyFrozen` on every property value. -/
def deeplyFrozenFields : JSFields → Bool
  | .nil => true
  | .cons _ v rest => deeplyFrozen v && deeplyFrozenFields rest

end

mutual

/-- Every already-frozen object inside the value is already deeply frozen
(in particular this holds when no part of the value is frozen yet).  This is
exactly the precondition under which `deepFreeze` reaches everything. -/
def frozenPartsDeep : JSObj → Bool
  | .num _ => true
  | .str _ => true
  | .obj f fs => if f then deeplyFrozenFields fs else frozenPartsDeepFields fs

/-- `frozenPartsDeep` on every property value. -/
def frozenPartsDeepFields : JSFields → Bool
  | .nil => true
  | .cons _ v rest => frozenPartsDeep v && frozenPartsDeepFields rest

end

/-- Property update on a property list: replace the named property if it is
present, append it otherwise. -/
def updateField : JSFields → String → JSObj → JSFields
  | .nil, k, w => .cons k w .nil
  | .cons n v rest, k, w =>
      if n = k then .cons n w rest else .cons n v (updateField rest k w)

mutual

/-- Non-strict JavaScript property assignment `o.p₁.p₂...pₙ = w` along a path:
the prefix of the path is only read; the final assignment silently does
nothing when the object it lands on is frozen (or when the path runs into a
primitive or a missing property). -/
def setPath : List String → JSObj → JSObj → JSObj
  | [], o, _ => o
  | [k], .obj false fs, w => .obj false (updateField fs k w)
  | [_], o, _ => o
  | k :: rest, .obj f fs, w => .obj f (setPathFields k rest fs w)
  | _ :: _, o, _ => o

/-- Walk the property list to the named property and continue the assignment
inside it. -/
def setPathFields : String → List String → JSFields → JSObj → JSFields
  | _, _, .nil, _ => .nil
  | k, rest, .cons n v r, w =>
      if n = k then .cons n (setPath rest v w) r
      else .cons n v (setPathFields k rest r w)

end

mutual

/-- Read the value at a property path (`none` when the path runs into a
primitive or a missing property). -/
def getPath : List String → JSObj → Option JSObj
  | [], o => some o
  | k :: rest, .obj _ fs => getPathFields k rest fs
  | _ :: _, _ => none

/-- Walk the property list to the named property and continue reading. -/
def getPathFields : String → List String → JSFields → Option JSObj
  | _, _, .nil => none
  | k, rest, .cons n v r => if n = k then getPath rest v else getPathFields k rest r

end

/-- The placeholder calibration record as a JavaScript object tree (every
node unfrozen, as a fresh object literal is). -/
def kFakeCalibrationObj : JSObj :=
  .obj false
    (.cons "configVersion" (.str "1.0")
    (.cons "pitch" (.obj false (.cons "value" (.num 45) .nil))
    (.cons "slope" (.obj false (.cons "value" (.num (-5)) .nil))
    (.cons "center" (.obj false (.cons "value" (.num (-1/2)) .nil))
    (.cons "viewCone" (.obj false (.cons "value" (.num 40) .nil))
    (.cons "invView" (.obj false (.cons "value" (.num 1) .nil))
    (.cons "verticalAngle" (.obj false (.cons "value" (.num 0) .nil))
    (.cons "DPI" (.obj false (.cons "value" (.num 338) .nil))
    (.cons "screenW" (.obj false (.cons "value" (.num 250) .nil))
    (.cons "screenH" (.obj false (.cons "value" (.num 250) .nil))
    (.cons "flipImageX" (.obj false (.cons "value" (.num 0) .nil))
    (.cons "flipImageY" (.obj false (.cons "value" (.num 0) .nil))
    (.cons "flipSubp" (.obj false (.cons "value" (.num 0) .nil))
    .nil)))))))))))))

/-- A calibration value whose `"a"` child arrives already frozen while the
grandchild object inside it is still mutable. -/
def preFrozenChildObj : JSObj :=
  .obj false
    (.cons "a"
      (.obj true
        (.cons "b" (.obj false (.cons "value" (.num 1) .nil)) .nil))
      .nil)

/-! Helper lemmas: the change-notification loop. -/

/-- A parameter setter never dispatches by itself: the event count is
untouched until the microtask queue runs. -/
theorem applySetter_notifications (g : Setter) (v : ℝ) (s : Store) :
    (applySetter g v s).notifications = s.notifications := by
  cases g <;> rfl

/-- A parameter setter always resolves the pending change promise. -/
theorem applySetter_pendingResolved (g : Setter) (v : ℝ) (s : Store) :
    (applySetter g v s).pendingResolved = true := by
  cases g <;> rfl

/-- Back-to-back setter calls dispatch nothing by themselves. -/
theorem applySetters_notifications :
    ∀ (l : List (Setter × ℝ)) (s : Store),
      (applySetters l s).notifications = s.notifications
  | [], _ => rfl
  | (g, v) :: rest, s => by
      rw [applySetters, applySetters_notifications rest, applySetter_notifications]

/-- After at least one setter call the change promise is resolved. -/
theorem applySetters_pendingResolved :
    ∀ (l : List (Setter × ℝ)) (s : Store), l ≠ [] →
      (applySetters l s).pendingResolved = true
  | [], _, h => absurd rfl h
  | [(g, v)], s, _ => by
      rw [applySetters, applySetters, applySetter_pendingResolved]
  | (g, v) :: e :: rest, s, _ => by
      rw [applySetters]
      exact applySetters_pendingResolved (e :: rest) _ (by simp)

/-- Processing the microtask queue when a resolution is pending dispatches
exactly one event and re-arms. -/
theorem drainMicrotasks_pending (t : Store) (h : t.pendingResolved = true) :
    drainMicrotasks t =
      { t with pendingResolved := false, notifications := t.notifications + 1 } := by
  simp [drainMicrotasks, h]

/-- Each setter call that gets its own event-loop turn dispatches exactly one
event. -/
theorem applySettersDrained_notifications :
    ∀ (l : List (Setter × ℝ)) (s : Store),
      (applySettersDrained l s).notifications = s.notifications + l.length
  | [], _ => rfl
  | (g, v) :: rest, s => by
      rw [applySettersDrained, applySettersDrained_notifications rest,
        drainMicrotasks_pending _ (applySetter_pendingResolved g v s)]
      simp [applySetter_notifications]
      omega

/-! Helper lemmas: smallest power of two via `2 ** ceil(log2 x)`. -/

/-- `⌈log₂ x⌉` picks out the least integer exponent `j` with `x ≤ 2 ^ j`
(for `1 ≤ x` that exponent is nonnegative). -/
theorem ceilLogTwo_spec (x : ℝ) (hx : 1 ≤ x) :
    0 ≤ ⌈Real.logb 2 x⌉ ∧ x ≤ (2 : ℝ) ^ ⌈Real.logb 2 x⌉ ∧
      ∀ j : ℤ, x ≤ (2 : ℝ) ^ j → ⌈Real.logb 2 x⌉ ≤ j := by
  have hx0 : (0 : ℝ) < x := zero_lt_one.trans_le hx
  refine ⟨Int.ceil_nonneg (Real.logb_nonneg one_lt_two hx), ?_, ?_⟩
  · have hle : Real.logb 2 x ≤ (⌈Real.logb 2 x⌉ : ℝ) := Int.le_ceil _
    have h := (Real.logb_le_iff_le_rpow one_lt_two hx0).mp hle
    rwa [Real.rpow_intCast] at h
  · intro j hj
    have h : x ≤ (2 : ℝ) ^ (j : ℝ) := by rwa [Real.rpow_intCast]
    exact Int.ceil_le.mpr ((Real.logb_le_iff_le_rpow one_lt_two hx0).mpr h)

/-- Concrete evaluation of `⌈log₂ x⌉` from a dyadic bracketing of `x`. -/
theorem ceilLogTwo_eq (x : ℝ) (k : ℤ) (hlow : (2 : ℝ) ^ (k - 1) < x)
    (hhigh : x ≤ (2 : ℝ) ^ k) : ⌈Real.logb 2 x⌉ = k := by
  have hx0 : (0 : ℝ) < x := (zpow_pos (by norm_num) _).trans hlow
  refine Int.ceil_eq_iff.mpr ⟨?_, ?_⟩
  · have h : (2 : ℝ) ^ ((k : ℝ) - 1) < x := by
      have hcast : ((k - 1 : ℤ) : ℝ) = (k : ℝ) - 1 := by push_cast; ring
      rw [← hcast, Real.rpow_intCast]
      exact hlow
    exact (Real.lt_logb_iff_rpow_lt one_lt_two hx0).mpr h
  · have h : x ≤ (2 : ℝ) ^ ((k : ℤ) : ℝ) := by rwa [Real.rpow_intCast]
    exact (Real.logb_le_iff_le_rpow one_lt_two hx0).mpr h

/-- The full `2 ** Math.ceil(Math.log2 m)` chain, for `1 ≤ m`: it returns a
power of two that is at least `m`, and no smaller integer power of two
is at least `m`. -/
theorem jsPowChain_spec (m : ℝ) (hm1 : 1 ≤ m) :
    ∃ k : ℕ, jsPow2 (jsCeil (jsLog2 (.fin m))) = .fin ((2 : ℝ) ^ k) ∧
      m ≤ (2 : ℝ) ^ k ∧
      ∀ j : ℤ, m ≤ (2 : ℝ) ^ j → ((2 : ℝ) ^ (k : ℤ)) ≤ (2 : ℝ) ^ j := by
  have hm0 : (0 : ℝ) < m := zero_lt_one.trans_le hm1
  obtain ⟨hK0, hKle, hKmin⟩ := ceilLogTwo_spec m hm1
  refine ⟨(⌈Real.logb 2 m⌉).toNat, ?_, ?_, ?_⟩
  · simp only [jsLog2]
    rw [if_neg (not_lt.mpr hm0.le), if_neg hm0.ne']
    simp only [jsCeil, jsPow2]
    rw [Real.rpow_intCast]
    congr 1
    rw [← zpow_natCast]
    congr 1
    exact (Int.toNat_of_nonneg hK0).symm
  · rwa [← Int.toNat_of_nonneg hK0, zpow_natCast] at hKle
  · intro j hj
    have hKj : ((⌈Real.logb 2 m⌉).toNat : ℤ) ≤ j := by
      rw [Int.toNat_of_nonneg hK0]
      exact hKmin j hj
    have h2 : ((2 : ℝ) ^ ((((⌈Real.logb 2 m⌉).toNat : ℤ)) : ℝ)) ≤ (2 : ℝ) ^ ((j : ℤ) : ℝ) :=
      (Real.rpow_le_rpow_left_iff one_lt_two).mpr (by exact_mod_cast hKj)
    rwa [Real.rpow_intCast, Real.rpow_intCast] at h2

/-- The `2 ** Math.ceil(Math.log2 x)` chain evaluated at a concretely
bracketed argument. -/
theorem jsPowChain_eval (x : ℝ) (k : ℤ) (hx : 0 < x)
    (hlow : (2 : ℝ) ^ (k - 1) < x) (hhigh : x ≤ (2 : ℝ) ^ k) :
    jsPow2 (jsCeil (jsLog2 (.fin x))) = .fin ((2 : ℝ) ^ k) := by
  simp only [jsLog2]
  rw [if_neg (not_lt.mpr hx.le), if_neg hx.ne']
  simp only [jsCeil, jsPow2]
  rw [ceilLogTwo_eq x k hlow hhigh, Real.rpow_intCast]

/-! Claim C1. -/

/-- C1 (corrected).  Rapid successive mutations are coalesced: with an
observer subscribed at a drained state (count `c₀ = 1` here), two setter
calls performed back to back in one synchronous block produce, after the
microtask queue runs, a single `on-config-changed` dispatch — the observer
receives `1` notification, not the `2` the claim requires — and no further
notification is pending. -/
theorem C1_counterexample :
    (drainMicrotasks (applySetter .numViews 3 (applySetter .tileHeight 100
        (drainMicrotasks initStore)))).notifications
      - (drainMicrotasks initStore).notifications = 1 ∧
    (drainMicrotasks (applySetter .numViews 3 (applySetter .tileHeight 100
        (drainMicrotasks initStore)))).pendingResolved = false ∧
    (1 : ℕ) ≠ 2 :=
  ⟨rfl, rfl, by decide⟩

/-- C1 (amended).  From a state whose change promise is armed and unresolved
(the microtask queue has been drained), a nonempty sequence of mutations
yields: exactly one notification per mutation when every mutation gets its
own event-loop turn (microtask queue drained after each setter call, so the
loop re-arms in between), but exactly one notification in total when all the
mutations happen back to back in a single synchronous block. -/
theorem C1_theorem (l : List (Setter × ℝ)) (s : Store)
    (h : s.pendingResolved = false) (hne : l ≠ []) :
    (applySettersDrained l s).notifications = s.notifications + l.length ∧
    (drainMicrotasks (applySetters l s)).notifications = s.notifications + 1 := by
  refine ⟨applySettersDrained_notifications l s, ?_⟩
  rw [drainMicrotasks_pending _ (applySetters_pendingResolved l s hne)]
  simp [applySetters_notifications]

/-- Witness for `C1_theorem` at a concrete drained state and a concrete
two-element mutation list. -/
theorem C1_witness :
    (drainMicrotasks initStore).pendingResolved = false ∧
    ([((Setter.tileHeight : Setter), (100 : ℝ)), (Setter.numViews, 3)] ≠
      ([] : List (Setter × ℝ))) ∧
    ((applySettersDrained [(Setter.tileHeight, 100), (Setter.numViews, 3)]
        (drainMicrotasks initStore)).notifications =
      (drainMicrotasks initStore).notifications + 2 ∧
    (drainMicrotasks (applySetters [(Setter.tileHeight, 100), (Setter.numViews, 3)]
        (drainMicrotasks initStore))).notifications =
      (drainMicrotasks initStore).notifications + 1) :=
  ⟨rfl, by simp,
    C1_theorem [(Setter.tileHeight, 100), (Setter.numViews, 3)]
      (drainMicrotasks initStore) rfl (by simp)⟩

/-! Claim C6. -/

/-- C6 (confirmed).  On an empty device list the success callback logs the
`No HoloPlay devices found!` error and returns the store completely
unchanged: the calibration (placeholder or otherwise) persists, no promise
resolution happens, and — the callback being a total function here — no
exception reaches consumers. -/
theorem C6_theorem (s : Store) :
    onClientMessage s ⟨[]⟩ = (s, [LogEntry.error "No HoloPlay devices found!"]) :=
  rfl

/-! Claim C7. -/

/-- C7 (confirmed).  With more than one device reported, the callback logs
exactly the multiple-device warning (no error), stores the first device's
calibration, and resolves the change promise, so that the next microtask
drain dispatches exactly one change notification. -/
theorem C7_theorem (s : Store) (d d2 : Device) (rest : List Device) :
    (onClientMessage s ⟨d :: d2 :: rest⟩).1.calibration = d.calibration ∧
    (onClientMessage s ⟨d :: d2 :: rest⟩).2 =
      [LogEntry.warn "More than one HoloPlay device found... using the first one"] ∧
    (onClientMessage s ⟨d :: d2 :: rest⟩).1.pendingResolved = true ∧
    (drainMicrotasks (onClientMessage s ⟨d :: d2 :: rest⟩).1).notifications =
      s.notifications + 1 := by
  refine ⟨rfl, ?_, rfl, rfl⟩
  simp [onClientMessage]

/-! Claim C8. -/

/-- C8 (confirmed).  Immediately after construction the eleven mutable
parameters hold exactly the documented defaults and the calibration field
holds the placeholder record with exactly the documented values. -/
theorem C8_theorem :
    initStore.tileHeight = 320 ∧ initStore.numViews = 2 ∧
    initStore.trackballX = 0 ∧ initStore.trackballY = 0 ∧
    initStore.targetX = 0 ∧ initStore.targetY = 1.6 ∧
    initStore.targetZ = -0.5 ∧ initStore.targetDiam = 2.0 ∧
    initStore.fovy = 13 / 180 * Real.pi ∧ initStore.depthiness = 1.25 ∧
    initStore.inlineView = 1 ∧
    initStore.calibration = kFakeCalibration ∧
    kFakeCalibration.configVersion = "1.0" ∧
    kFakeCalibration.pitch.value = 45 ∧ kFakeCalibration.slope.value = -5 ∧
    kFakeCalibration.center.value = -0.5 ∧ kFakeCalibration.viewCone.value = 40 ∧
    kFakeCalibration.invView.value = 1 ∧ kFakeCalibration.verticalAngle.value = 0 ∧
    kFakeCalibration.DPI.value = 338 ∧ kFakeCalibration.screenW.value = 250 ∧
    kFakeCalibration.screenH.value = 250 ∧ kFakeCalibration.flipImageX.value = 0 ∧
    kFakeCalibration.flipImageY.value = 0 ∧ kFakeCalibration.flipSubp.value = 0 := by
  refine ⟨rfl, rfl, rfl, rfl, rfl, rfl, rfl, rfl, ?_, rfl, rfl, rfl, rfl, rfl, rfl,
    rfl, rfl, rfl, rfl, rfl, rfl, rfl, rfl, rfl, rfl⟩
  show (13.0 : ℝ) / 180 * Real.pi = 13 / 180 * Real.pi
  norm_num

/-! Claim C9. -/

/-- C9 (confirmed).  Every computed getter is pure: reading it returns the
store state unchanged, and reading it a second time (on the state the first
read returned) yields the identical value. -/
theorem C9_theorem (g : Getter) (s : Store) :
    (readGetter g s).2 = s ∧
    (readGetter g (readGetter g s).2).1 = (readGetter g s).1 := by
  cases g <;> exact ⟨rfl, rfl⟩

/-! Claim C10. -/

/-- C10 (confirmed).  Each parameter setter stores exactly the assigned
value in its own backing field, leaves every other parameter's backing field
untouched, and leaves the calibration record untouched. -/
theorem C10_theorem (g g2 : Setter) (v : ℝ) (s : Store) (h : g2 ≠ g) :
    paramValue g (applySetter g v s) = v ∧
    paramValue g2 (applySetter g v s) = paramValue g2 s ∧
    (applySetter g v s).calibration = s.calibration := by
  cases g <;> cases g2 <;>
    first
      | exact absurd rfl h
      | exact ⟨rfl, rfl, rfl⟩

/-- Witness for `C10_theorem`: setting `tileHeight` to `7` on the fresh
store leaves `numViews` and the calibration unchanged. -/
theorem C10_witness :
    Setter.numViews ≠ Setter.tileHeight ∧
    (paramValue .tileHeight (applySetter .tileHeight 7 initStore) = 7 ∧
      paramValue .numViews (applySetter .tileHeight 7 initStore) =
        paramValue .numViews initStore ∧
      (applySetter .tileHeight 7 initStore).calibration = initStore.calibration) :=
  ⟨by decide, C10_theorem .tileHeight .numViews 7 initStore (by decide)⟩

/-! Helper lemmas: evaluating the getters. -/

/-- `Math.round` evaluated from an integer bracketing. -/
theorem jsRound_fin (a : ℝ) (z : ℤ) (h1 : (z : ℝ) ≤ a + 1 / 2) (h2 : a + 1 / 2 < z + 1) :
    jsRound (.fin a) = .fin ((z : ℤ) : ℝ) := by
  simp only [jsRound]
  rw [Int.floor_eq_iff.mpr ⟨h1, h2⟩]

/-- `Math.floor` evaluated from an integer bracketing. -/
theorem jsFloor_fin (a : ℝ) (z : ℤ) (h1 : (z : ℝ) ≤ a) (h2 : a < z + 1) :
    jsFloor (.fin a) = .fin ((z : ℤ) : ℝ) := by
  simp only [jsFloor]
  rw [Int.floor_eq_iff.mpr ⟨h1, h2⟩]

/-- `Math.ceil` evaluated from an integer bracketing. -/
theorem jsCeil_fin (a : ℝ) (z : ℤ) (h1 : (z : ℝ) - 1 < a) (h2 : a ≤ z) :
    jsCeil (.fin a) = .fin ((z : ℤ) : ℝ) := by
  simp only [jsCeil]
  rw [Int.ceil_eq_iff.mpr ⟨h1, h2⟩]

/-- On any store still holding the placeholder calibration, `aspect` is
`250 / 250 = 1`. -/
theorem aspect_fake (s : Store) (h : s.calibration = kFakeCalibration) :
    aspect s = .fin 1 := by
  unfold aspect
  rw [h]
  show jsDiv (.fin 250) (.fin 250) = .fin 1
  simp only [jsDiv]
  rw [if_neg (by norm_num : ¬(250 : ℝ) = 0)]
  norm_num

/-- `tileWidth` on the fresh store: `round(320 * 1) = 320`. -/
theorem tileWidth_init : tileWidth initStore = .fin 320 := by
  unfold tileWidth
  rw [aspect_fake initStore rfl]
  show jsRound (jsMul (.fin (320 : ℝ)) (.fin 1)) = .fin 320
  simp only [jsMul]
  rw [jsRound_fin _ 320 (by norm_num) (by norm_num)]
  norm_num

/-- `framebufferWidth` on a store with `tileWidth = fin tw`, `tw ≥ 1`,
`tileHeight ≥ 0` and `numViews ≥ 0`: it is `2 ^ k` for a natural `k`, it is
at least `max(sqrt(tileWidth·tileHeight·numViews), tileWidth)`, and it is
the least integer power of two with that property. -/
theorem framebufferWidth_spec (s : Store) (tw : ℝ) (htw : tileWidth s = .fin tw)
    (h1 : 1 ≤ tw) (hth : 0 ≤ s.tileHeight) (hnv : 0 ≤ s.numViews) :
    ∃ k : ℕ, framebufferWidth s = .fin ((2 : ℝ) ^ k) ∧
      max (Real.sqrt (tw * s.tileHeight * s.numViews)) tw ≤ (2 : ℝ) ^ k ∧
      ∀ j : ℤ, max (Real.sqrt (tw * s.tileHeight * s.numViews)) tw ≤ (2 : ℝ) ^ j →
        ((2 : ℝ) ^ (k : ℤ)) ≤ (2 : ℝ) ^ j := by
  have hnp : (0 : ℝ) ≤ tw * s.tileHeight * s.numViews :=
    mul_nonneg (mul_nonneg (zero_le_one.trans h1) hth) hnv
  have hm1 : 1 ≤ max (Real.sqrt (tw * s.tileHeight * s.numViews)) tw :=
    h1.trans (le_max_right _ _)
  have hfb : framebufferWidth s =
      jsPow2 (jsCeil (jsLog2
        (.fin (max (Real.sqrt (tw * s.tileHeight * s.numViews)) tw)))) := by
    show jsPow2 (jsCeil (jsLog2 (jsMax (jsSqrt (jsMul (jsMul (tileWidth s)
        (.fin s.tileHeight)) (.fin s.numViews))) (tileWidth s)))) = _
    rw [htw]
    simp only [jsMul, jsSqrt]
    rw [if_neg (not_lt.mpr hnp)]
    simp only [jsMax]
  obtain ⟨k, hk1, hk2, hk3⟩ := jsPowChain_spec _ hm1
  exact ⟨k, hfb ▸ hk1, hk2, hk3⟩

/-- `framebufferWidth` on the fresh store is `512`. -/
theorem framebufferWidth_init : framebufferWidth initStore = .fin 512 := by
  have h320 : (320 : ℝ) ≤ Real.sqrt 204800 := by
    rw [show (320 : ℝ) = Real.sqrt (320 ^ 2) from (Real.sqrt_sq (by norm_num)).symm]
    exact Real.sqrt_le_sqrt (by norm_num)
  have hl : (256 : ℝ) < Real.sqrt 204800 := by
    rw [show (256 : ℝ) = Real.sqrt (256 ^ 2) from (Real.sqrt_sq (by norm_num)).symm]
    exact Real.sqrt_lt_sqrt (by positivity) (by norm_num)
  have hs : Real.sqrt 204800 ≤ 512 := by
    rw [show (512 : ℝ) = Real.sqrt (512 ^ 2) from (Real.sqrt_sq (by norm_num)).symm]
    exact Real.sqrt_le_sqrt (by norm_num)
  show jsPow2 (jsCeil (jsLog2 (jsMax (jsSqrt (jsMul (jsMul (tileWidth initStore)
      (.fin (320 : ℝ))) (.fin (2 : ℝ)))) (tileWidth initStore)))) = .fin 512
  rw [tileWidth_init]
  simp only [jsMul, jsSqrt]
  rw [if_neg (by norm_num : ¬(320 : ℝ) * 320 * 2 < 0)]
  rw [show (320 : ℝ) * 320 * 2 = 204800 by norm_num]
  simp only [jsMax]
  rw [max_eq_left h320]
  rw [jsPowChain_eval (Real.sqrt 204800) 9 (Real.sqrt_pos.mpr (by norm_num))
    (by norm_num; exact hl) (by norm_num; exact hs)]
  norm_num

/-- `quiltWidth` on the fresh store is `floor(512 / 320) = 1`. -/
theorem quiltWidth_init : quiltWidth initStore = .fin 1 := by
  unfold quiltWidth
  rw [framebufferWidth_init, tileWidth_init]
  simp only [jsDiv]
  rw [if_neg (by norm_num : ¬(320 : ℝ) = 0)]
  rw [jsFloor_fin _ 1 (by norm_num) (by norm_num)]
  norm_num

/-- `quiltHeight` on the fresh store is `ceil(2 / 1) = 2`. -/
theorem quiltHeight_init : quiltHeight initStore = .fin 2 := by
  unfold quiltHeight
  rw [quiltWidth_init]
  show jsCeil (jsDiv (.fin (2 : ℝ)) (.fin 1)) = .fin 2
  simp only [jsDiv]
  rw [if_neg (by norm_num : ¬(1 : ℝ) = 0)]
  rw [jsCeil_fin _ 2 (by norm_num) (by norm_num)]
  norm_num

/-- `framebufferHeight` on the fresh store is `1024`. -/
theorem framebufferHeight_init : framebufferHeight initStore = .fin 1024 := by
  unfold framebufferHeight
  rw [quiltHeight_init]
  show jsPow2 (jsCeil (jsLog2 (jsMul (.fin (2 : ℝ)) (.fin (320 : ℝ))))) = .fin 1024
  simp only [jsMul]
  rw [show (2 : ℝ) * 320 = 640 by norm_num]
  rw [jsPowChain_eval 640 10 (by norm_num) (by norm_num) (by norm_num)]
  norm_num

/-! Claim C4. -/

/-- C4 (confirmed).  On the freshly constructed store the six derived
getters return exactly the documented values: `aspect = 1`,
`tileWidth = 320`, `framebufferWidth = 512`, `quiltWidth = 1`,
`quiltHeight = 2` and `framebufferHeight = 1024`. -/
theorem C4_theorem :
    aspect initStore = .fin 1 ∧ tileWidth initStore = .fin 320 ∧
    framebufferWidth initStore = .fin 512 ∧ quiltWidth initStore = .fin 1 ∧
    quiltHeight initStore = .fin 2 ∧ framebufferHeight initStore = .fin 1024 :=
  ⟨aspect_fake initStore rfl, tileWidth_init, framebufferWidth_init,
    quiltWidth_init, quiltHeight_init, framebufferHeight_init⟩

/-! Claim C2. -/

/-- `tileWidth` after setting `tileHeight = 0`: `round(0 * 1) = 0`. -/
theorem tileWidth_zeroTH : tileWidth zeroTileHeightStore = .fin 0 := by
  unfold tileWidth
  rw [aspect_fake zeroTileHeightStore rfl]
  show jsRound (jsMul (.fin (0 : ℝ)) (.fin 1)) = .fin 0
  simp only [jsMul]
  rw [jsRound_fin _ 0 (by norm_num) (by norm_num)]
  norm_num

/-- C2 (corrected as stated).  With `tileHeight` set to `0` (so
`tileWidth = 0` and `numPixels = 0`), `Math.log2` is taken at `0`, giving
`-Infinity`, and `2 ** -Infinity = 0`: `framebufferWidth` returns `0`, which
is not a power of two at all (so in particular not the smallest power of two
above `max(sqrt(0), 0) = 0`). -/
theorem C2_counterexample :
    framebufferWidth zeroTileHeightStore = .fin 0 ∧ ¬ IsPow2 0 := by
  constructor
  · show jsPow2 (jsCeil (jsLog2 (jsMax (jsSqrt (jsMul (jsMul
        (tileWidth zeroTileHeightStore) (.fin (0 : ℝ))) (.fin (2 : ℝ))))
        (tileWidth zeroTileHeightStore)))) = .fin 0
    rw [tileWidth_zeroTH]
    simp only [jsMul, jsSqrt]
    rw [if_neg (by norm_num : ¬(0 : ℝ) * 0 * 2 < 0)]
    rw [show (0 : ℝ) * 0 * 2 = 0 by norm_num, Real.sqrt_zero]
    simp only [jsMax]
    rw [max_self]
    simp only [jsLog2]
    rw [if_neg (lt_irrefl (0 : ℝ))]
    simp only [if_true]
    rfl
  · rintro ⟨k, hk⟩
    exact zpow_ne_zero k (by norm_num : (2 : ℝ) ≠ 0) hk.symm

/-- C2 (amended).  Restricted to stores whose rounded `tileWidth` is a finite
value `tw ≥ 1` with `tileHeight ≥ 0` and `numViews ≥ 0` (every device-like
configuration), `framebufferWidth` is a power of two that is at least
`max(sqrt(tileWidth·tileHeight·numViews), tileWidth)`, and it is the
smallest integer power of two with that property. -/
theorem C2_theorem (s : Store) (tw : ℝ) (htw : tileWidth s = .fin tw)
    (h1 : 1 ≤ tw) (hth : 0 ≤ s.tileHeight) (hnv : 0 ≤ s.numViews) :
    ∃ k : ℕ, framebufferWidth s = .fin ((2 : ℝ) ^ k) ∧
      max (Real.sqrt (tw * s.tileHeight * s.numViews)) tw ≤ (2 : ℝ) ^ k ∧
      ∀ j : ℤ, max (Real.sqrt (tw * s.tileHeight * s.numViews)) tw ≤ (2 : ℝ) ^ j →
        ((2 : ℝ) ^ (k : ℤ)) ≤ (2 : ℝ) ^ j :=
  framebufferWidth_spec s tw htw h1 hth hnv

/-- Witness for `C2_theorem` on the freshly constructed store. -/
theorem C2_witness :
    tileWidth initStore = .fin 320 ∧ (1 : ℝ) ≤ 320 ∧
    (0 : ℝ) ≤ initStore.tileHeight ∧ (0 : ℝ) ≤ initStore.numViews ∧
    (∃ k : ℕ, framebufferWidth initStore = .fin ((2 : ℝ) ^ k) ∧
      max (Real.sqrt (320 * initStore.tileHeight * initStore.numViews)) 320 ≤
        (2 : ℝ) ^ k ∧
      ∀ j : ℤ, max (Real.sqrt (320 * initStore.tileHeight * initStore.numViews)) 320 ≤
          (2 : ℝ) ^ j →
        ((2 : ℝ) ^ (k : ℤ)) ≤ (2 : ℝ) ^ j) :=
  ⟨tileWidth_init, by norm_num, by norm_num [initStore], by norm_num [initStore],
    C2_theorem initStore 320 tileWidth_init (by norm_num) (by norm_num [initStore])
      (by norm_num [initStore])⟩

/-! Claim C3. -/

/-- C3 (amended).  Under the same non-degeneracy conditions as `C2_theorem`,
the quilt grid fits all views: `quiltWidth * quiltHeight ≥ numViews`. -/
theorem C3_theorem (s : Store) (tw : ℝ) (htw : tileWidth s = .fin tw)
    (h1 : 1 ≤ tw) (hth : 0 ≤ s.tileHeight) (hnv : 0 ≤ s.numViews) :
    ∃ qw qh : ℤ, quiltWidth s = .fin (qw : ℝ) ∧ quiltHeight s = .fin (qh : ℝ) ∧
      s.numViews ≤ (qw : ℝ) * (qh : ℝ) := by
  obtain ⟨k, hfb, hmax, _⟩ := framebufferWidth_spec s tw htw h1 hth hnv
  have htw0 : (0 : ℝ) < tw := zero_lt_one.trans_le h1
  have hwge : tw ≤ (2 : ℝ) ^ k := (le_max_right _ _).trans hmax
  have hqw : quiltWidth s = .fin ((⌊(2 : ℝ) ^ k / tw⌋ : ℤ) : ℝ) := by
    unfold quiltWidth
    rw [hfb, htw]
    simp only [jsDiv]
    rw [if_neg htw0.ne']
    simp only [jsFloor]
  have hqw1 : 1 ≤ ⌊(2 : ℝ) ^ k / tw⌋ := by
    apply Int.le_floor.mpr
    push_cast
    exact (one_le_div htw0).mpr hwge
  have hqwR : (0 : ℝ) < ((⌊(2 : ℝ) ^ k / tw⌋ : ℤ) : ℝ) := by
    exact_mod_cast zero_lt_one.trans_le hqw1
  have hqh : quiltHeight s =
      .fin ((⌈s.numViews / ((⌊(2 : ℝ) ^ k / tw⌋ : ℤ) : ℝ)⌉ : ℤ) : ℝ) := by
    unfold quiltHeight
    rw [hqw]
    simp only [jsDiv]
    rw [if_neg hqwR.ne']
    simp only [jsCeil]
  refine ⟨⌊(2 : ℝ) ^ k / tw⌋, ⌈s.numViews / ((⌊(2 : ℝ) ^ k / tw⌋ : ℤ) : ℝ)⌉,
    hqw, hqh, ?_⟩
  calc s.numViews
      = s.numViews / ((⌊(2 : ℝ) ^ k / tw⌋ : ℤ) : ℝ) *
          ((⌊(2 : ℝ) ^ k / tw⌋ : ℤ) : ℝ) := (div_mul_cancel₀ _ hqwR.ne').symm
    _ ≤ ((⌈s.numViews / ((⌊(2 : ℝ) ^ k / tw⌋ : ℤ) : ℝ)⌉ : ℤ) : ℝ) *
          ((⌊(2 : ℝ) ^ k / tw⌋ : ℤ) : ℝ) :=
        mul_le_mul_of_nonneg_right (Int.le_ceil _) hqwR.le
    _ = _ := mul_comm _ _

/-- Witness for `C3_theorem` on the freshly constructed store. -/
theorem C3_witness :
    tileWidth initStore = .fin 320 ∧ (1 : ℝ) ≤ 320 ∧
    (0 : ℝ) ≤ initStore.tileHeight ∧ (0 : ℝ) ≤ initStore.numViews ∧
    (∃ qw qh : ℤ, quiltWidth initStore = .fin (qw : ℝ) ∧
      quiltHeight initStore = .fin (qh : ℝ) ∧
      initStore.numViews ≤ (qw : ℝ) * (qh : ℝ)) :=
  ⟨tileWidth_init, by norm_num, by norm_num [initStore], by norm_num [initStore],
    C3_theorem initStore 320 tileWidth_init (by norm_num) (by norm_num [initStore])
      (by norm_num [initStore])⟩

/-- `tileWidth` after setting `tileHeight = -320`: `round(-320 * 1) = -320`. -/
theorem tileWidth_negTH : tileWidth negTileHeightStore = .fin (-320) := by
  unfold tileWidth
  rw [aspect_fake negTileHeightStore rfl]
  show jsRound (jsMul (.fin (-320 : ℝ)) (.fin 1)) = .fin (-320)
  simp only [jsMul]
  rw [jsRound_fin _ (-320) (by norm_num) (by norm_num)]
  norm_num

/-- `framebufferWidth` after `tileHeight = -320; numViews = 3`:
`numPixels = (-320)·(-320)·3 = 307200`, `sqrt ≈ 554.3`,
`max(554.3, -320) = 554.3`, next power of two is `1024`. -/
theorem framebufferWidth_negTH : framebufferWidth negTileHeightStore = .fin 1024 := by
  have h512 : (512 : ℝ) < Real.sqrt 307200 := by
    rw [show (512 : ℝ) = Real.sqrt (512 ^ 2) from (Real.sqrt_sq (by norm_num)).symm]
    exact Real.sqrt_lt_sqrt (by positivity) (by norm_num)
  have hub : Real.sqrt 307200 ≤ 1024 := by
    rw [show (1024 : ℝ) = Real.sqrt (1024 ^ 2) from (Real.sqrt_sq (by norm_num)).symm]
    exact Real.sqrt_le_sqrt (by norm_num)
  show jsPow2 (jsCeil (jsLog2 (jsMax (jsSqrt (jsMul (jsMul
      (tileWidth negTileHeightStore) (.fin (-320 : ℝ))) (.fin (3 : ℝ))))
      (tileWidth negTileHeightStore)))) = .fin 1024
  rw [tileWidth_negTH]
  simp only [jsMul, jsSqrt]
  rw [if_neg (by norm_num : ¬(-320 : ℝ) * -320 * 3 < 0)]
  rw [show (-320 : ℝ) * -320 * 3 = 307200 by norm_num]
  simp only [jsMax]
  rw [max_eq_left ((by norm_num : (-320 : ℝ) ≤ 0).trans (Real.sqrt_nonneg _))]
  rw [jsPowChain_eval (Real.sqrt 307200) 10 (Real.sqrt_pos.mpr (by norm_num))
    (by norm_num; exact h512) (by norm_num; exact hub)]
  norm_num

/-- `quiltWidth` there: `floor(1024 / -320) = floor(-3.2) = -4`. -/
theorem quiltWidth_negTH : quiltWidth negTileHeightStore = .fin (-4) := by
  unfold quiltWidth
  rw [framebufferWidth_negTH, tileWidth_negTH]
  simp only [jsDiv]
  rw [if_neg (by norm_num : ¬(-320 : ℝ) = 0)]
  rw [jsFloor_fin _ (-4) (by norm_num) (by norm_num)]
  norm_num

/-- `quiltHeight` there: `ceil(3 / -4) = ceil(-0.75) = 0`. -/
theorem quiltHeight_negTH : quiltHeight negTileHeightStore = .fin 0 := by
  unfold quiltHeight
  rw [quiltWidth_negTH]
  show jsCeil (jsDiv (.fin (3 : ℝ)) (.fin (-4 : ℝ))) = .fin 0
  simp only [jsDiv]
  rw [if_neg (by norm_num : ¬(-4 : ℝ) = 0)]
  rw [jsCeil_fin _ 0 (by norm_num) (by norm_num)]
  norm_num

/-- C3 (corrected as stated).  After `tileHeight = -320; numViews = 3` the
quilt getters return `quiltWidth = -4` and `quiltHeight = 0`, so
`quiltWidth * quiltHeight = 0 < 3 = numViews`: the quilt grid does not fit
all views for every store state. -/
theorem C3_counterexample :
    quiltWidth negTileHeightStore = .fin (-4) ∧
    quiltHeight negTileHeightStore = .fin 0 ∧
    negTileHeightStore.numViews = 3 ∧ ¬ ((3 : ℝ) ≤ (-4) * 0) :=
  ⟨quiltWidth_negTH, quiltHeight_negTH, rfl, by norm_num⟩

/-! Helper lemmas: `deepFreeze`. -/

/-- A deeply frozen value never passes the recursion guard of `deepFreeze`
(primitives are not objects, and a deeply frozen object is frozen). -/
theorem deeplyFrozen_skip (v : JSObj) (h : deeplyFrozen v = true) :
    (isObjectVal v && !isFrozenVal v) = false := by
  cases v with
  | num _ => rfl
  | str _ => rfl
  | obj f fs =>
      simp only [deeplyFrozen, Bool.and_eq_true] at h
      simp [isObjectVal, isFrozenVal, h.1]

/-- `deepFreeze` leaves an already deeply frozen property list untouched. -/
theorem deepFreezeFields_of_deeplyFrozen (fs : JSFields)
    (h : deeplyFrozenFields fs = true) : deepFreezeFields fs = fs := by
  refine @JSFields.rec (fun _ => True)
    (fun fs => deeplyFrozenFields fs = true → deepFreezeFields fs = fs)
    (fun _ => trivial) (fun _ => trivial) (fun _ _ _ => trivial) (fun _ => rfl)
    ?_ fs h
  intro n v rest _ ihrest hc
  simp only [deeplyFrozenFields, Bool.and_eq_true] at hc
  simp only [deepFreezeFields]
  rw [deeplyFrozen_skip v hc.1]
  simp [ihrest hc.2]

/-- When every already-frozen part of the value is already deeply frozen,
`deepFreeze` produces a deeply frozen result. -/
theorem deepFreeze_deeplyFrozen (o : JSObj) (h : frozenPartsDeep o = true) :
    deeplyFrozen (deepFreeze o) = true := by
  refine @JSObj.rec
    (fun o => frozenPartsDeep o = true → deeplyFrozen (deepFreeze o) = true)
    (fun fs => frozenPartsDeepFields fs = true →
      deeplyFrozenFields (deepFreezeFields fs) = true)
    (fun _ _ => rfl) (fun _ _ => rfl) ?_ (fun _ => rfl) ?_ o h
  · intro f fs ih hc
    cases f with
    | false =>
        have hc2 : frozenPartsDeepFields fs = true := by
          simpa [frozenPartsDeep] using hc
        simp only [deepFreeze, deeplyFrozen, Bool.true_and]
        exact ih hc2
    | true =>
        have hc2 : deeplyFrozenFields fs = true := by
          simpa [frozenPartsDeep] using hc
        simp only [deepFreeze, deeplyFrozen, Bool.true_and]
        rw [deepFreezeFields_of_deeplyFrozen fs hc2]
        exact hc2
  · intro n v rest ihv ihrest hc
    simp only [frozenPartsDeepFields, Bool.and_eq_true] at hc
    simp only [deepFreezeFields, deeplyFrozenFields, Bool.and_eq_true]
    refine ⟨?_, ihrest hc.2⟩
    cases v with
    | num u => simp [isObjectVal, deeplyFrozen]
    | str t => simp [isObjectVal, deeplyFrozen]
    | obj vf vfs =>
        cases vf with
        | false =>
            rw [if_pos ⟨rfl, rfl⟩]
            exact ihv hc.1
        | true =>
            rw [if_neg (by simp [isFrozenVal])]
            have hv : deeplyFrozenFields vfs = true := by
              simpa [frozenPartsDeep] using hc.1
            simp [deeplyFrozen, hv]

/-- Non-strict property assignment anywhere inside a deeply frozen value is
a no-op. -/
theorem setPath_frozen (p : List String) :
    ∀ (o w : JSObj), deeplyFrozen o = true → setPath p o w = o := by
  induction p with
  | nil => intro o w _; cases o <;> rfl
  | cons k rest ih =>
      intro o w h
      cases o with
      | num v => cases rest <;> rfl
      | str t => cases rest <;> rfl
      | obj f fs =>
          cases rest with
          | nil =>
              cases f with
              | true => rfl
              | false => simp [deeplyFrozen] at h
          | cons r rs =>
              simp only [deeplyFrozen, Bool.and_eq_true] at h
              show JSObj.obj f (setPathFields k (r :: rs) fs w) = JSObj.obj f fs
              congr 1
              refine @JSFields.rec (fun _ => True)
                (fun fs => deeplyFrozenFields fs = true →
                  setPathFields k (r :: rs) fs w = fs)
                (fun _ => trivial) (fun _ => trivial) (fun _ _ _ => trivial)
                (fun _ => rfl) ?_ fs h.2
              intro n v fr _ ihfr hd
              simp only [deeplyFrozenFields, Bool.and_eq_true] at hd
              simp only [setPathFields]
              by_cases hnk : n = k
              · rw [if_pos hnk, ih v w hd.1]
              · rw [if_neg hnk, ihfr hd.2]

/-! Claim C5. -/

/-- C5 (corrected as stated).  A calibration value can arrive with an
already-frozen child whose own child is still mutable: `deepFreeze` skips
recursion into frozen children, so the grandchild object stays unfrozen, the
stored record is not recursively frozen, and a subsequent property
assignment on `store.calibration.a.b.value` observably changes the stored
record (from `1` to `2`). -/
theorem C5_counterexample :
    deeplyFrozen (deepFreeze preFrozenChildObj) = false ∧
    getPath ["a", "b", "value"]
        (setPath ["a", "b", "value"] (deepFreeze preFrozenChildObj) (.num 2)) =
      some (.num 2) ∧
    getPath ["a", "b", "value"] (deepFreeze preFrozenChildObj) = some (.num 1) :=
  ⟨by decide, by decide, by decide⟩

/-- C5 (amended).  For every calibration value in which any already-frozen
object is already deeply frozen — in particular every freshly built, fully
unfrozen record — `deepFreeze` leaves the assigned record and all of its
nested objects frozen, and every subsequent property assignment on the
stored record is a no-op. -/
theorem C5_theorem (c : JSObj) (h : frozenPartsDeep c = true)
    (p : List String) (w : JSObj) :
    deeplyFrozen (deepFreeze c) = true ∧ setPath p (deepFreeze c) w = deepFreeze c :=
  ⟨deepFreeze_deeplyFrozen c h,
    setPath_frozen p (deepFreeze c) w (deepFreeze_deeplyFrozen c h)⟩

/-- Witness for `C5_theorem`: the placeholder calibration object, frozen on
assignment, rejects a later write to `pitch.value`. -/
theorem C5_witness :
    frozenPartsDeep kFakeCalibrationObj = true ∧
    (deeplyFrozen (deepFreeze kFakeCalibrationObj) = true ∧
      setPath ["pitch", "value"] (deepFreeze kFakeCalibrationObj) (.num 99) =
        deepFreeze kFakeCalibrationObj) :=
  ⟨by decide, C5_theorem kFakeCalibrationObj (by decide) ["pitch", "value"] (.num 99)⟩
